import Mathlib

/-!
Verification of the TwoPhaser two-phase-commit file wrapper
(src/utils/TwoPhaser.py).

The filesystem state relevant to one `TwoPhaser` instance is the content
(or absence) of four sibling files derived from the primary path:
the primary `P`, the backup `B` (`P + ".bak"`), the temporary `T`
(`P + ".tmp"`) and the probe `R` (`P + ".prb"`).  We model it as a
function from a four-element name type to `Option String` (`none` =
the file does not exist).
-/

/-- The four sibling files derived from the primary path in
`TwoPhaser.__enter__` (lines 112-116 of TwoPhaser.py). -/
inductive FName where
  | primary
  | backup
  | temporary
  | probe
deriving DecidableEq

/-- Filesystem state: content of each of the four files, `none` when the
file does not exist. -/
abbrev FS := FName → Option String

/-- Point update of the filesystem state. -/
def upd (fs : FS) (p : FName) (v : Option String) : FS :=
  fun q => if q = p then v else fs q

/-- `TwoPhaser._safe_delete`: `path.unlink()` with `FileNotFoundError`
swallowed, i.e. the file is unconditionally absent afterwards. -/
def safe_delete (fs : FS) (p : FName) : FS := upd fs p none

/-- `TwoPhaser._safe_rename`: `path_from.rename(path_to)` with
`FileNotFoundError` swallowed.  When the source exists its content moves
to the destination (overwriting it, POSIX rename) and the source is
removed; when the source does not exist nothing happens. -/
def safe_rename (fs : FS) (src dst : FName) : FS :=
  match fs src with
  | none => fs
  | some c => upd (upd fs src none) dst (some c)

/-- `TwoPhaser._recover` (lines 169-186): run at session start.
If `T` exists: delete it when `P` exists, rename it to `P` when `P` is
absent but `B` exists, and delete it when neither `P` nor `B` exists.
If `T` does not exist, do nothing (the backup-only branch is commented
out in the source). -/
def recover (fs : FS) : FS :=
  if (fs .temporary).isSome then
    if (fs .primary).isSome then
      safe_delete fs .temporary
    else
      if (fs .backup).isSome then
        safe_rename fs .temporary .primary
      else
        safe_delete fs .temporary
  else
    fs

/-- The filesystem effect of `TwoPhaser._close(normal)` (lines 157-168),
given that a file handle was open (`self._file is not None`).  Only a
writable session touches the filesystem: on a normal close it commits
(if `P` exists: delete `B`, rename `P` to `B`; then rename `T` to `P`),
otherwise it rolls back (delete `T`). -/
def tp_close (writable normal : Bool) (fs : FS) : FS :=
  if writable then
    if normal then
      safe_rename
        (if (fs .primary).isSome then
          safe_rename (safe_delete fs .backup) .primary .backup
        else
          fs)
        .temporary .primary
    else
      safe_delete fs .temporary
  else
    fs

/-- The open modes of Python's builtin `open`, which `TwoPhaser`
forwards its arguments to: read, read-update, write (truncate),
write-update, append, append-update, exclusive create. -/
inductive Mode where
  | r
  | rplus
  | w
  | wplus
  | a
  | aplus
  | x
deriving DecidableEq

/-- Errors observable in the model: Python's `FileNotFoundError` and
`FileExistsError` from `open`, the `WritableMismatch` raised by
`TwoPhaser.__enter__`, and an arbitrary exception raised by the
caller's with-block body. -/
inductive Err where
  | fileNotFound
  | fileExists
  | writableMismatch
  | bodyError
deriving DecidableEq

/-- Model of Python's builtin `open(path, mode)` as used through
`pathlib.Path.open`: returns the new filesystem state and the opened
handle's `writable()` flag, or the error it raises.  `r`/`r+` require
the file to exist; `w`/`w+` create or truncate it; `a`/`a+` create it
if absent and keep its content otherwise; `x` fails if it exists and
creates it otherwise.  Only `r` yields a non-writable handle. -/
def pyOpen (fs : FS) (p : FName) (m : Mode) : Except Err (FS × Bool) :=
  match m with
  | .r =>
    match fs p with
    | none => .error .fileNotFound
    | some _ => .ok (fs, false)
  | .rplus =>
    match fs p with
    | none => .error .fileNotFound
    | some _ => .ok (fs, true)
  | .w => .ok (upd fs p (some ""), true)
  | .wplus => .ok (upd fs p (some ""), true)
  | .a => .ok (upd fs p (some ((fs p).getD "")), true)
  | .aplus => .ok (upd fs p (some ((fs p).getD "")), true)
  | .x =>
    match fs p with
    | some _ => .error .fileExists
    | none => .ok (upd fs p (some ""), true)

/-- The probing step of `TwoPhaser.__enter__` (lines 116-125): open the
probe path with the caller's configuration, record the handle's
`writable()` flag, and in a `finally` remove the probe file if it
exists; a `FileNotFoundError` from the open is caught and recorded as
"not writable".  Any other error propagates (after the `finally`
removed the probe file). -/
def probeStep (fs : FS) (m : Mode) : FS × Except Err Bool :=
  match pyOpen fs .probe m with
  | .ok (fs1, wr) => (upd fs1 .probe none, .ok wr)
  | .error e =>
    if e = .fileNotFound then
      (upd fs .probe none, .ok false)
    else
      (upd fs .probe none, .error e)

/-- The backing-path selection of `TwoPhaser.__enter__` (lines 132-139):
a writable session uses `T`; a read-only session uses `B` when `B`
exists and `P` does not, and `P` otherwise. -/
def choosePath (writable : Bool) (fs : FS) : FName :=
  if writable then
    .temporary
  else
    if (fs .backup).isSome && (fs .primary).isNone then
      .backup
    else
      .primary

/-- The state handed to the caller by a successful `__enter__`:
the probed writability, the file backing the returned handle, and
whether the "reading from the backup file" warning was logged
(line 137). -/
structure Session where
  writable : Bool
  backing : FName
  warnedBackup : Bool
deriving DecidableEq

/-- Result of `TwoPhaser.__enter__`: the filesystem state when control
returns to the caller, the session (or the raised error), and whether a
file handle is left open (`true` exactly on success, where the handle
is returned to the caller; every error path closes the handle first or
never opened one). -/
structure EnterOut where
  fs : FS
  result : Except Err Session
  handleOpen : Bool

/-- `TwoPhaser.__enter__` (lines 105-150): probe writability, recover,
choose the backing path, open it, and check the probed writability
against the actual one, raising `WritableMismatch` (after
`_close(False)`) when they differ. -/
def enter (fs : FS) (m : Mode) : EnterOut :=
  match probeStep fs m with
  | (fs1, .error e) => ⟨fs1, .error e, false⟩
  | (fs1, .ok wr) =>
    let fs2 := recover fs1
    let p := choosePath wr fs2
    match pyOpen fs2 p m with
    | .error e => ⟨fs2, .error e, false⟩
    | .ok (fs3, wActual) =>
      if wr != wActual then
        ⟨tp_close wr false fs3, .error .writableMismatch, false⟩
      else
        ⟨fs3, .ok ⟨wr, p, !wr && ((fs2 .backup).isSome && (fs2 .primary).isNone)⟩, true⟩

/-- `TwoPhaser.__exit__` (lines 151-154): close via
`_close(exception_type is None)` and return `False`, so a caller
exception is never suppressed. -/
def twoPhaserExit (writable excRaised : Bool) (fs : FS) : FS × Bool :=
  (tp_close writable (!excRaised) fs, false)

/-- A whole session whose body raises an exception: enter, then the
with-statement runs `__exit__` with the exception active; the exception
propagates unless `__exit__` returns `True`.  Returns the final
filesystem state and the propagating error, if any. -/
def writeSessionRaise (fs : FS) (m : Mode) : FS × Option Err :=
  match enter fs m with
  | ⟨fs1, .error e, _⟩ => (fs1, some e)
  | ⟨fs1, .ok s, _⟩ =>
    match twoPhaserExit s.writable true fs1 with
    | (fs2, suppressed) => (fs2, if suppressed then none else some .bodyError)

/-- A whole session whose body writes `content` through the handle
(which goes to the backing file) and exits normally. -/
def writeSessionOk (fs : FS) (m : Mode) (content : String) : FS × Option Err :=
  match enter fs m with
  | ⟨fs1, .error e, _⟩ => (fs1, some e)
  | ⟨fs1, .ok s, _⟩ =>
    match twoPhaserExit s.writable false (upd fs1 s.backing (some content)) with
    | (fs2, _) => (fs2, none)

/-- A whole read session (`mode = r`): enter, read the backing file's
content through the handle, exit normally. -/
def readSession (fs : FS) : FS × Except Err String :=
  match enter fs .r with
  | ⟨fs1, .error e, _⟩ => (fs1, .error e)
  | ⟨fs1, .ok s, _⟩ =>
    match twoPhaserExit s.writable false fs1 with
    | (fs2, _) => (fs2, .ok ((fs1 s.backing).getD ""))

/-- The probe verdict produced by `probeStep` when the probe file does
not pre-exist: only the plain read mode and the read-update mode (whose
opens fail with `FileNotFoundError` on the absent probe file) are
classified "not writable". -/
def probedWritable (m : Mode) : Bool :=
  match m with
  | .r => false
  | .rplus => false
  | _ => true

/-- The empty filesystem: none of the four files exist. -/
def emptyFS : FS := fun _ => none

/-- Concrete state: only the primary file exists. -/
def fsP : FS := fun q =>
  match q with
  | .primary => some "x"
  | _ => none

/-- Concrete state: the temporary and the backup file exist, the
primary does not (the state left by a crash between demoting the old
primary and promoting the new write). -/
def fsTB : FS := fun q =>
  match q with
  | .temporary => some "t"
  | .backup => some "b"
  | _ => none

/-- Concrete state: only the temporary file exists. -/
def fsT : FS := fun q =>
  match q with
  | .temporary => some "t"
  | _ => none

/-- One successful write of `x` through a full `two_phase_open(.., 'w')`
session. -/
def writeStep (fs : FS) (x : String) : FS := (writeSessionOk fs .w x).1

@[simp]
lemma upd_apply (fs : FS) (p : FName) (v : Option String) (q : FName) :
    upd fs p v q = if q = p then v else fs q := rfl

lemma upd_upd_same (fs : FS) (p : FName) (v w : Option String) :
    upd (upd fs p v) p w = upd fs p w := by
  funext q
  by_cases h : q = p <;> simp [upd, h]

lemma upd_eq_self (fs : FS) (p : FName) (v : Option String) (h : fs p = v) :
    upd fs p v = fs := by
  funext q
  by_cases hq : q = p <;> simp [upd, hq, h]

lemma recover_temporary_none (fs : FS) : recover fs .temporary = none := by
  rcases h : fs .temporary with _ | c
  · simp [recover, h]
  · by_cases hp : (fs .primary).isSome
    · simp [recover, h, hp, safe_delete]
    · by_cases hb : (fs .backup).isSome
      · simp [recover, h, hp, hb, safe_rename, safe_delete]
      · simp [recover, h, hp, hb, safe_delete]

lemma recover_backup (fs : FS) : recover fs .backup = fs .backup := by
  rcases h : fs .temporary with _ | c
  · simp [recover, h]
  · by_cases hp : (fs .primary).isSome
    · simp [recover, h, hp, safe_delete]
    · by_cases hb : (fs .backup).isSome
      · simp [recover, h, hp, hb, safe_rename, safe_delete]
      · simp [recover, h, hp, hb, safe_delete]

lemma recover_probe (fs : FS) : recover fs .probe = fs .probe := by
  rcases h : fs .temporary with _ | c
  · simp [recover, h]
  · by_cases hp : (fs .primary).isSome
    · simp [recover, h, hp, safe_delete]
    · by_cases hb : (fs .backup).isSome
      · simp [recover, h, hp, hb, safe_rename, safe_delete]
      · simp [recover, h, hp, hb, safe_delete]

lemma recover_of_temp_none (fs : FS) (h : fs .temporary = none) :
    recover fs = fs := by
  simp [recover, h]

lemma probeStep_clean (fs : FS) (m : Mode) (hp : fs .probe = none) :
    probeStep fs m = (fs, .ok (probedWritable m)) := by
  cases m <;>
    simp [probeStep, pyOpen, probedWritable, hp, upd_upd_same, upd_eq_self fs .probe none hp]

lemma enter_writable (fs : FS) (m : Mode) (hp : fs .probe = none)
    (hm : probedWritable m = true) :
    enter fs m =
      ⟨upd (recover fs) .temporary (some ""), .ok ⟨true, .temporary, false⟩, true⟩ := by
  have hps : probeStep fs m = (fs, .ok (probedWritable m)) := probeStep_clean fs m hp
  cases m <;> simp [probedWritable] at hm hps ⊢ <;>
    simp [enter, hps, pyOpen, choosePath, recover_temporary_none]

lemma enter_read_backup (fs : FS) (hp : fs .probe = none)
    (hP : recover fs .primary = none) (hB : (recover fs .backup).isSome) :
    enter fs .r = ⟨recover fs, .ok ⟨false, .backup, true⟩, true⟩ := by
  have hps : probeStep fs .r = (fs, .ok false) := probeStep_clean fs .r hp
  rcases hb : recover fs .backup with _ | c
  · simp [hb] at hB
  · simp [enter, hps, choosePath, hP, hb, pyOpen]

lemma enter_read_primary (fs : FS) (p : String) (hp : fs .probe = none)
    (hP : recover fs .primary = some p) :
    enter fs .r = ⟨recover fs, .ok ⟨false, .primary, false⟩, true⟩ := by
  have hps : probeStep fs .r = (fs, .ok false) := probeStep_clean fs .r hp
  simp [enter, hps, choosePath, hP, pyOpen]

lemma enter_read_none (fs : FS) (hp : fs .probe = none)
    (hP : recover fs .primary = none) (hB : recover fs .backup = none) :
    enter fs .r = ⟨recover fs, .error .fileNotFound, false⟩ := by
  have hps : probeStep fs .r = (fs, .ok false) := probeStep_clean fs .r hp
  simp [enter, hps, choosePath, hP, hB, pyOpen]

lemma enter_rplus_mismatch (fs : FS) (p : String) (hp : fs .probe = none)
    (hP : recover fs .primary = some p) :
    enter fs .rplus = ⟨recover fs, .error .writableMismatch, false⟩ := by
  have hps : probeStep fs .rplus = (fs, .ok false) := probeStep_clean fs .rplus hp
  simp [enter, hps, choosePath, hP, pyOpen, tp_close]

lemma tp_close_commit_primary (fs : FS) :
    tp_close true true fs .primary = fs .temporary := by
  rcases hP : fs .primary with _ | p <;>
  rcases ht : fs .temporary with _ | t <;>
    simp [tp_close, hP, ht, safe_rename, safe_delete]

lemma tp_close_commit_backup (fs : FS) :
    tp_close true true fs .backup =
      if (fs .primary).isSome then fs .primary else fs .backup := by
  rcases hP : fs .primary with _ | p <;>
  rcases ht : fs .temporary with _ | t <;>
    simp [tp_close, hP, ht, safe_rename, safe_delete]

lemma tp_close_commit_temp (fs : FS) :
    tp_close true true fs .temporary = none := by
  rcases hP : fs .primary with _ | p <;>
  rcases ht : fs .temporary with _ | t <;>
    simp [tp_close, hP, ht, safe_rename, safe_delete]

lemma tp_close_commit_probe (fs : FS) :
    tp_close true true fs .probe = fs .probe := by
  rcases hP : fs .primary with _ | p <;>
  rcases ht : fs .temporary with _ | t <;>
    simp [tp_close, hP, ht, safe_rename, safe_delete]

lemma writeSessionOk_writable (fs : FS) (m : Mode) (content : String)
    (hp : fs .probe = none) (hm : probedWritable m = true) :
    writeSessionOk fs m content =
      (tp_close true true (upd (recover fs) .temporary (some content)), none) := by
  simp [writeSessionOk, enter_writable fs m hp hm, twoPhaserExit, upd_upd_same]

lemma writeSessionRaise_writable (fs : FS) (m : Mode)
    (hp : fs .probe = none) (hm : probedWritable m = true) :
    writeSessionRaise fs m =
      (upd (recover fs) .temporary none, some .bodyError) := by
  simp [writeSessionRaise, enter_writable fs m hp hm, twoPhaserExit, tp_close,
    safe_delete, upd_upd_same]

lemma readSession_primary (fs : FS) (p : String) (hp : fs .probe = none)
    (hP : recover fs .primary = some p) :
    readSession fs = (recover fs, .ok p) := by
  simp [readSession, enter_read_primary fs p hp hP, twoPhaserExit, tp_close, hP]

lemma readSession_backup (fs : FS) (c : String) (hp : fs .probe = none)
    (hP : recover fs .primary = none) (hB : recover fs .backup = some c) :
    readSession fs = (recover fs, .ok c) := by
  have hB' : (recover fs .backup).isSome := by simp [hB]
  simp [readSession, enter_read_backup fs hp hP hB', twoPhaserExit, tp_close, hB]

lemma readSession_none (fs : FS) (hp : fs .probe = none)
    (hP : recover fs .primary = none) (hB : recover fs .backup = none) :
    readSession fs = (recover fs, .error .fileNotFound) := by
  simp [readSession, enter_read_none fs hp hP hB]

lemma enter_rplus_backup (fs : FS) (c : String) (hp : fs .probe = none)
    (hP : recover fs .primary = none) (hB : recover fs .backup = some c) :
    enter fs .rplus = ⟨recover fs, .error .writableMismatch, false⟩ := by
  have hps : probeStep fs .rplus = (fs, .ok false) := probeStep_clean fs .rplus hp
  simp [enter, hps, choosePath, hP, hB, pyOpen, tp_close]

lemma enter_rplus_nofile (fs : FS) (hp : fs .probe = none)
    (hP : recover fs .primary = none) (hB : recover fs .backup = none) :
    enter fs .rplus = ⟨recover fs, .error .fileNotFound, false⟩ := by
  have hps : probeStep fs .rplus = (fs, .ok false) := probeStep_clean fs .rplus hp
  simp [enter, hps, choosePath, hP, hB, pyOpen]

lemma writeSessionRaise_readonly (fs : FS) (m : Mode) (hp : fs .probe = none)
    (hm : probedWritable m = false) :
    (writeSessionRaise fs m).1 = recover fs := by
  cases m <;> simp [probedWritable] at hm
  case r =>
    rcases hP : recover fs .primary with _ | p
    · rcases hB : recover fs .backup with _ | c
      · simp [writeSessionRaise, enter_read_none fs hp hP hB]
      · have hB' : (recover fs .backup).isSome := by simp [hB]
        simp [writeSessionRaise, enter_read_backup fs hp hP hB', twoPhaserExit, tp_close]
    · simp [writeSessionRaise, enter_read_primary fs p hp hP, twoPhaserExit, tp_close]
  case rplus =>
    rcases hP : recover fs .primary with _ | p
    · rcases hB : recover fs .backup with _ | c
      · simp [writeSessionRaise, enter_rplus_nofile fs hp hP hB]
      · simp [writeSessionRaise, enter_rplus_backup fs c hp hP hB]
    · simp [writeSessionRaise, enter_rplus_mismatch fs p hp hP]

lemma enter_readonly_fs (fs : FS) (m : Mode) (hp : fs .probe = none)
    (hm : probedWritable m = false) :
    (enter fs m).fs = recover fs := by
  cases m <;> simp [probedWritable] at hm
  case r =>
    rcases hP : recover fs .primary with _ | p
    · rcases hB : recover fs .backup with _ | c
      · simp [enter_read_none fs hp hP hB]
      · have hB' : (recover fs .backup).isSome := by simp [hB]
        simp [enter_read_backup fs hp hP hB']
    · simp [enter_read_primary fs p hp hP]
  case rplus =>
    rcases hP : recover fs .primary with _ | p
    · rcases hB : recover fs .backup with _ | c
      · simp [enter_rplus_nofile fs hp hP hB]
      · simp [enter_rplus_backup fs c hp hP hB]
    · simp [enter_rplus_mismatch fs p hp hP]

lemma readSession_fs (fs : FS) (hp : fs .probe = none) :
    (readSession fs).1 = recover fs := by
  rcases hP : recover fs .primary with _ | p
  · rcases hB : recover fs .backup with _ | c
    · simp [readSession_none fs hp hP hB]
    · simp [readSession_backup fs c hp hP hB]
  · simp [readSession_primary fs p hp hP]

/-- C1: `TwoPhaser._recover` performs exactly the spec's decision-table
action on every existence state of {P, B, T}: with T and P present it
deletes T; with T present, P absent and B present it renames T to P;
with T present and neither P nor B present it deletes T; with T absent
it does nothing — in particular a lone backup (no T, no P) is not
promoted to primary. -/
theorem recover_matches_table (fs : FS) :
    ((fs .temporary).isSome → (fs .primary).isSome →
      recover fs = safe_delete fs .temporary)
    ∧ ((fs .temporary).isSome → fs .primary = none → (fs .backup).isSome →
      recover fs = safe_rename fs .temporary .primary)
    ∧ ((fs .temporary).isSome → fs .primary = none → fs .backup = none →
      recover fs = safe_delete fs .temporary)
    ∧ (fs .temporary = none → recover fs = fs)
    ∧ (fs .temporary = none → fs .primary = none → (fs .backup).isSome →
      recover fs = fs) :=
  ⟨fun ht hp => by simp [recover, ht, hp],
   fun ht hp hb => by simp [recover, ht, hp, hb],
   fun ht hp hb => by simp [recover, ht, hp, hb],
   fun ht => by simp [recover, ht],
   fun ht _ _ => by simp [recover, ht]⟩

theorem recover_matches_table_witness :
    (fsTB .temporary).isSome ∧ fsTB .primary = none ∧ (fsTB .backup).isSome
    ∧ recover fsTB = safe_rename fsTB .temporary .primary :=
  ⟨rfl, rfl, rfl, (recover_matches_table fsTB).2.1 rfl rfl rfl⟩

/-- C2: the commit path of `TwoPhaser._close` (writable session, normal
close) performs exactly: if P exists, delete B then rename P to B, and
in every case rename T to P.  Extensionally: the new P is the old T, the
new B is the old P when that existed and the old B otherwise, and T is
gone; in particular when P did not exist, B is left untouched while T
still becomes the new P. -/
theorem commit_effect (fs : FS) :
    tp_close true true fs .primary = fs .temporary
    ∧ tp_close true true fs .backup =
        (if (fs .primary).isSome then fs .primary else fs .backup)
    ∧ tp_close true true fs .temporary = none
    ∧ ((fs .primary).isSome →
        tp_close true true fs =
          safe_rename (safe_rename (safe_delete fs .backup) .primary .backup)
            .temporary .primary)
    ∧ (fs .primary = none →
        tp_close true true fs .backup = fs .backup
        ∧ tp_close true true fs .primary = fs .temporary) :=
  ⟨tp_close_commit_primary fs,
   tp_close_commit_backup fs,
   tp_close_commit_temp fs,
   fun hp => by simp [tp_close, hp],
   fun hp => ⟨by simp [tp_close_commit_backup, hp], tp_close_commit_primary fs⟩⟩

theorem commit_effect_witness :
    fsTB .primary = none
    ∧ tp_close true true fsTB .backup = fsTB .backup
    ∧ tp_close true true fsTB .primary = fsTB .temporary :=
  ⟨rfl, ((commit_effect fsTB).2.2.2.2 rfl).1, ((commit_effect fsTB).2.2.2.2 rfl).2⟩

/-- C3 fails as stated: a writable session whose body raises does delete
T and let the exception surface, but recovery during session setup can
change P before the body ever runs.  Starting from T and B present and
P absent, recovery rolls the leftover T forward into P, so after the
rolled-back session P exists even though it did not before the session
began. -/
theorem rollback_cex :
    fsTB .primary = none
    ∧ (writeSessionRaise fsTB .w).2 = some .bodyError
    ∧ (writeSessionRaise fsTB .w).1 .primary = some "t" :=
  ⟨rfl, rfl, rfl⟩

/-- C3 (amended): for every writable session whose body raises, started
from a state satisfying the post-recovery invariant (T absent, and the
probe file absent as always outside probing): the close path deletes T,
leaves P and B (existence and content) exactly as they were before the
session, the exception still surfaces to the caller, and if P existed a
subsequent read returns its pre-session content. -/
theorem rollback_amended (fs : FS) (m : Mode)
    (hp : fs .probe = none) (ht : fs .temporary = none)
    (hm : probedWritable m = true) :
    (writeSessionRaise fs m).2 = some .bodyError
    ∧ (writeSessionRaise fs m).1 .primary = fs .primary
    ∧ (writeSessionRaise fs m).1 .backup = fs .backup
    ∧ (writeSessionRaise fs m).1 .temporary = none
    ∧ (∀ p, fs .primary = some p →
        (readSession ((writeSessionRaise fs m).1)).2 = .ok p) := by
  have h := writeSessionRaise_writable fs m hp hm
  rw [recover_of_temp_none fs ht] at h
  rw [h]
  refine ⟨rfl, by simp [upd], by simp [upd], by simp [upd], ?_⟩
  intro p hP
  have hp' : upd fs .temporary none .probe = none := by simp [upd, hp]
  have ht' : upd fs .temporary none .temporary = none := by simp [upd]
  have hP' : recover (upd fs .temporary none) .primary = some p := by
    rw [recover_of_temp_none _ ht']
    simp [upd, hP]
  rw [readSession_primary _ p hp' hP']

theorem rollback_amended_witness :
    fsP .probe = none ∧ fsP .temporary = none ∧ probedWritable .w = true
    ∧ (writeSessionRaise fsP .w).2 = some .bodyError
    ∧ (readSession ((writeSessionRaise fsP .w).1)).2 = .ok "x" :=
  ⟨rfl, rfl, rfl, (rollback_amended fsP .w rfl rfl rfl).1,
   (rollback_amended fsP .w rfl rfl rfl).2.2.2.2 "x" rfl⟩

/-- C4: the temporary file never survives.  Immediately after
`_recover` completes T does not exist; and after any session close — a
normal commit, a rollback on a body exception, a plain read session, or
a failure during session setup (`__enter__` raising) — T does not exist
either. -/
theorem temporary_invariant (fs : FS) (m : Mode) (c : String)
    (hp : fs .probe = none) :
    recover fs .temporary = none
    ∧ (probedWritable m = true → (writeSessionOk fs m c).1 .temporary = none)
    ∧ (writeSessionRaise fs m).1 .temporary = none
    ∧ (readSession fs).1 .temporary = none
    ∧ (∀ e, (enter fs m).result = .error e → (enter fs m).fs .temporary = none) := by
  refine ⟨recover_temporary_none fs, fun hm => ?_, ?_, ?_, fun e he => ?_⟩
  · rw [writeSessionOk_writable fs m c hp hm]
    exact tp_close_commit_temp _
  · rcases hpw : probedWritable m
    · rw [writeSessionRaise_readonly fs m hp hpw]
      exact recover_temporary_none fs
    · rw [writeSessionRaise_writable fs m hp hpw]
      simp [upd]
  · rw [readSession_fs fs hp]
    exact recover_temporary_none fs
  · rcases hpw : probedWritable m
    · rw [enter_readonly_fs fs m hp hpw]
      exact recover_temporary_none fs
    · rw [enter_writable fs m hp hpw] at he
      simp at he

theorem temporary_invariant_witness :
    emptyFS .probe = none ∧ probedWritable .w = true
    ∧ (writeSessionOk emptyFS .w "z").1 .temporary = none :=
  ⟨rfl, rfl, (temporary_invariant emptyFS .w "z" rfl).2.1 rfl⟩

/-- C5 fails as stated: the probe's verdict does not always equal the
actual write capability, so the `WritableMismatch` branch is reachable.
With only the primary file present and the read-update configuration
(`r+`), the probe open fails with not-found (the probe file never
pre-exists) and yields the verdict "not writable", while the real open
of the primary yields a writable handle; `__enter__` raises
`WritableMismatch`. -/
theorem probe_verdict_cex :
    (probeStep fsP .rplus).2 = .ok false
    ∧ pyOpen fsP .primary .rplus = .ok (fsP, true)
    ∧ (enter fsP .rplus).result = .error .writableMismatch :=
  ⟨rfl, rfl, rfl⟩

/-- C5 (amended): for every open configuration other than read-update
(`r+`), the probe's verdict equals the actual write capability of the
handle opened on the real backing file, so the `WritableMismatch`
check never fires; for `r+` against an existing backing file the probe
predicts "not writable" while the real handle is writable, and the
session fails with `WritableMismatch`. -/
theorem probe_verdict_amended (fs : FS) (m : Mode)
    (hp : fs .probe = none) (hm : m ≠ .rplus) :
    (enter fs m).result ≠ .error .writableMismatch := by
  rcases hpw : probedWritable m
  · have hr : m = .r := by
      cases m <;> simp_all [probedWritable]
    subst hr
    rcases hP : recover fs .primary with _ | p
    · rcases hB : recover fs .backup with _ | c
      · rw [enter_read_none fs hp hP hB]
        simp
      · rw [enter_read_backup fs hp hP (by simp [hB])]
        simp
    · rw [enter_read_primary fs p hp hP]
      simp
  · rw [enter_writable fs m hp hpw]
    simp

theorem probe_verdict_amended_witness :
    emptyFS .probe = none ∧ (Mode.r ≠ Mode.rplus)
    ∧ (enter emptyFS .r).result ≠ .error .writableMismatch :=
  ⟨rfl, by decide, probe_verdict_amended emptyFS .r rfl (by decide)⟩

/-- C6 fails as stated: when neither P nor B exists the read does fail
with not-found, but the filesystem is not always left unchanged — if a
leftover T existed at session start, recovery deletes it before the
failing open.  Starting from only T present, the read session fails
not-found yet T has been removed. -/
theorem read_selection_cex :
    fsT .primary = none ∧ fsT .backup = none
    ∧ (readSession fsT).2 = .error .fileNotFound
    ∧ fsT .temporary = some "t"
    ∧ (readSession fsT).1 .temporary = none :=
  ⟨rfl, rfl, rfl, rfl, rfl⟩

/-- C6 (amended): for every read-only session, after recovery the
backing file is B exactly when B exists and P does not (and then the
backup warning is emitted and B's content is served), and P otherwise
(no warning, P's content served); when none of P, B, T exist at session
start, the underlying open's not-found error propagates to the caller
unchanged and the filesystem state is left unchanged. -/
theorem read_selection_amended (fs : FS) (hp : fs .probe = none) :
    (recover fs .primary = none → ∀ c, recover fs .backup = some c →
      (enter fs .r).result = .ok ⟨false, .backup, true⟩
      ∧ readSession fs = (recover fs, .ok c))
    ∧ (∀ p, recover fs .primary = some p →
      (enter fs .r).result = .ok ⟨false, .primary, false⟩
      ∧ readSession fs = (recover fs, .ok p))
    ∧ (fs .primary = none → fs .backup = none → fs .temporary = none →
      readSession fs = (fs, .error .fileNotFound)) := by
  refine ⟨fun hP c hB => ⟨?_, readSession_backup fs c hp hP hB⟩,
    fun p hP => ⟨?_, readSession_primary fs p hp hP⟩,
    fun hP hB ht => ?_⟩
  · rw [enter_read_backup fs hp hP (by simp [hB])]
  · rw [enter_read_primary fs p hp hP]
  · have hre : recover fs = fs := recover_of_temp_none fs ht
    rw [readSession_none fs hp (by rw [hre]; exact hP) (by rw [hre]; exact hB), hre]

theorem read_selection_amended_witness :
    fsTB .probe = none
    ∧ recover fsTB .primary = some "t"
    ∧ (enter fsTB .r).result = .ok ⟨false, .primary, false⟩
    ∧ readSession fsTB = (recover fsTB, .ok "t") :=
  ⟨rfl, by simp [recover, fsTB, safe_rename, safe_delete],
   ((read_selection_amended fsTB rfl).2.1 "t"
     (by simp [recover, fsTB, safe_rename, safe_delete])).1,
   ((read_selection_amended fsTB rfl).2.1 "t"
     (by simp [recover, fsTB, safe_rename, safe_delete])).2⟩

/-- C7: whenever the probed writability and the actual `writable()` of
the real backing handle differ, `__enter__` fails immediately with the
distinguished `WritableMismatch` error, and the partially-opened
backing handle is closed (no handle is left open) before the error
reaches the caller. -/
theorem mismatch_handling (fs : FS) (m : Mode) (fs1 fs3 : FS) (wr wA : Bool)
    (hps : probeStep fs m = (fs1, .ok wr))
    (hop : pyOpen (recover fs1) (choosePath wr (recover fs1)) m = .ok (fs3, wA))
    (hne : wr ≠ wA) :
    (enter fs m).result = .error .writableMismatch
    ∧ (enter fs m).handleOpen = false
    ∧ (enter fs m).fs = tp_close wr false fs3 := by
  simp [enter, hps, hop, hne]

theorem mismatch_handling_witness :
    probeStep fsP .rplus = (upd fsP .probe none, .ok false)
    ∧ pyOpen (recover (upd fsP .probe none))
        (choosePath false (recover (upd fsP .probe none))) .rplus
        = .ok (recover (upd fsP .probe none), true)
    ∧ (false ≠ true)
    ∧ (enter fsP .rplus).result = .error .writableMismatch
    ∧ (enter fsP .rplus).handleOpen = false := by
  refine ⟨rfl, rfl, by decide, ?_, ?_⟩
  · exact (mismatch_handling fsP .rplus (upd fsP .probe none)
      (recover (upd fsP .probe none)) false true rfl rfl (by decide)).1
  · exact (mismatch_handling fsP .rplus (upd fsP .probe none)
      (recover (upd fsP .probe none)) false true rfl rfl (by decide)).2.1

lemma writeStep_probe (fs : FS) (x : String) (hp : fs .probe = none) :
    writeStep fs x .probe = none := by
  rw [writeStep, writeSessionOk_writable fs .w x hp rfl]
  show tp_close true true (upd (recover fs) .temporary (some x)) .probe = none
  rw [tp_close_commit_probe]
  simp [upd, recover_probe, hp]

lemma writeStep_primary (fs : FS) (x : String) (hp : fs .probe = none) :
    writeStep fs x .primary = some x := by
  rw [writeStep, writeSessionOk_writable fs .w x hp rfl]
  show tp_close true true (upd (recover fs) .temporary (some x)) .primary = some x
  rw [tp_close_commit_primary]
  simp [upd]

lemma writeStep_temp (fs : FS) (x : String) (hp : fs .probe = none) :
    writeStep fs x .temporary = none := by
  rw [writeStep, writeSessionOk_writable fs .w x hp rfl]
  show tp_close true true (upd (recover fs) .temporary (some x)) .temporary = none
  exact tp_close_commit_temp _

lemma writeStep_backup (fs : FS) (x : String) (hp : fs .probe = none)
    (ht : fs .temporary = none) :
    writeStep fs x .backup =
      if (fs .primary).isSome then fs .primary else fs .backup := by
  rw [writeStep, writeSessionOk_writable fs .w x hp rfl]
  show tp_close true true (upd (recover fs) .temporary (some x)) .backup = _
  rw [tp_close_commit_backup]
  rw [recover_of_temp_none fs ht]
  simp [upd]

lemma foldl_writeStep_probe (xs : List String) :
    ∀ fs : FS, fs .probe = none → (xs.foldl writeStep fs) .probe = none := by
  induction xs with
  | nil => intro fs hp; exact hp
  | cons x xs ih => intro fs hp; exact ih (writeStep fs x) (writeStep_probe fs x hp)

/-- C8: after N >= 2 sequential successful writable sessions writing
contents X1..XN (here: any prior writes `xs`, then `a`, then `b`) to
the same primary path, P's content is the last write, B's content is
the second-to-last, and T does not exist. -/
theorem write_sequencing (fs : FS) (xs : List String) (a b : String)
    (hp : fs .probe = none) :
    ((xs ++ [a, b]).foldl writeStep fs) .primary = some b
    ∧ ((xs ++ [a, b]).foldl writeStep fs) .backup = some a
    ∧ ((xs ++ [a, b]).foldl writeStep fs) .temporary = none := by
  have hfold : (xs ++ [a, b]).foldl writeStep fs
      = writeStep (writeStep (xs.foldl writeStep fs) a) b := by
    rw [List.foldl_append]
    rfl
  rw [hfold]
  have hsp : (xs.foldl writeStep fs) .probe = none := foldl_writeStep_probe xs fs hp
  have h1p : writeStep (xs.foldl writeStep fs) a .probe = none :=
    writeStep_probe _ a hsp
  have h1pr : writeStep (xs.foldl writeStep fs) a .primary = some a :=
    writeStep_primary _ a hsp
  have h1t : writeStep (xs.foldl writeStep fs) a .temporary = none :=
    writeStep_temp _ a hsp
  refine ⟨writeStep_primary _ b h1p, ?_, writeStep_temp _ b h1p⟩
  rw [writeStep_backup _ b h1p h1t, h1pr]
  simp

theorem write_sequencing_witness :
    emptyFS .probe = none
    ∧ ((([] : List String) ++ ["a", "b"]).foldl writeStep emptyFS) .primary = some "b"
    ∧ ((([] : List String) ++ ["a", "b"]).foldl writeStep emptyFS) .backup = some "a" :=
  ⟨rfl, (write_sequencing emptyFS [] "a" "b" rfl).1,
   (write_sequencing emptyFS [] "a" "b" rfl).2.1⟩

/-- C9: if opening the probe file fails with a not-found error, the
probing step records the configuration as "not writable" and proceeds
(it returns normally instead of propagating the failure, leaving the
probe file removed); and in every outcome of probing — success or
failure partway — the probe file does not exist once probing
completes. -/
theorem probe_cleanup (fs : FS) (m : Mode) :
    (pyOpen fs .probe m = .error .fileNotFound →
      probeStep fs m = (upd fs .probe none, .ok false))
    ∧ (probeStep fs m).1 .probe = none := by
  constructor
  · intro h
    simp [probeStep, h]
  · cases h : pyOpen fs .probe m with
    | error e =>
      by_cases he : e = .fileNotFound <;> simp [probeStep, h, he, upd]
    | ok v =>
      cases v with
      | mk fs1 wr => simp [probeStep, h, upd]

theorem probe_cleanup_witness :
    pyOpen emptyFS .probe .r = .error .fileNotFound
    ∧ probeStep emptyFS .r = (upd emptyFS .probe none, .ok false) :=
  ⟨rfl, (probe_cleanup emptyFS .r).1 rfl⟩

/-- C10: `TwoPhaser.__exit__` always returns `False`, so the context
manager never suppresses the caller's exception: after the close path
runs, the same exception continues to propagate out of the with-block
in every session whose `__enter__` succeeded. -/
theorem exit_no_suppress (w e : Bool) (fs fs0 : FS) (m : Mode) :
    (twoPhaserExit w e fs).2 = false
    ∧ (∀ s, (enter fs0 m).result = .ok s →
        (writeSessionRaise fs0 m).2 = some .bodyError) := by
  constructor
  · rfl
  · intro s hs
    rcases he : enter fs0 m with ⟨fs1, r, ho⟩
    rw [he] at hs
    simp only at hs
    subst hs
    simp [writeSessionRaise, he, twoPhaserExit]

theorem exit_no_suppress_witness :
    (twoPhaserExit true true fsP).2 = false
    ∧ (enter fsP .r).result = .ok ⟨false, .primary, false⟩
    ∧ (writeSessionRaise fsP .r).2 = some .bodyError :=
  ⟨(exit_no_suppress true true fsP fsP .r).1, rfl,
   (exit_no_suppress true true fsP fsP .r).2 ⟨false, .primary, false⟩ rfl⟩
